import Mathlib

/-!
Shallow embedding of the `ercaspay` payment-gateway client
(`src/ercaspay/utility.py`, `src/ercaspay/ercaspay.py`) and of its Flask
checkout-handshake layer, together with theorems settling the frozen claims.

JSON values and Python runtime values are modelled by `PyVal`.  Dictionary
`get` with a default is total; the source only applies `.get` to mapping
values (gateway responses are mappings per the gateway contract).  Raised
Python exceptions are modelled by `Except String`.  The HTTP transport is an
external collaborator and is modelled as an oracle from requests to results.
-/

/-- Model of a Python/JSON runtime value as used by the client: `None`,
booleans, numbers, strings and string-keyed dictionaries. -/
inductive PyVal where
  | none
  | bool (b : Bool)
  | num (n : Int)
  | str (s : String)
  | dict (entries : List (String × PyVal))

/-- Python truthiness: `None`, `False`, `0`, `""` and `{}` are falsy. -/
def PyVal.truthy : PyVal → Bool
  | .none => false
  | .bool b => b
  | .num n => n != 0
  | .str s => s != ""
  | .dict es => !es.isEmpty

/-- Whether a value is Python's `None` (the `is None` / `is not None` tests). -/
def PyVal.isNone : PyVal → Bool
  | .none => true
  | _ => false

/-- Python `dict.get(key, default)`.  The source only calls `.get` on mapping
values; on non-mappings this model yields the default. -/
def pyGet (v : PyVal) (k : String) (dflt : PyVal) : PyVal :=
  match v with
  | .dict entries =>
    match entries.lookup k with
    | some x => x
    | Option.none => dflt
  | _ => dflt

/-- Python subscription `v[key]`: raises `KeyError` when the key is absent. -/
def pyGetItem (v : PyVal) (k : String) : Except String PyVal :=
  match v with
  | .dict entries =>
    match entries.lookup k with
    | some x => Except.ok x
    | Option.none => Except.error ("KeyError: " ++ k)
  | _ => Except.error "TypeError: value is not subscriptable"

/-- Python `str(v)` / f-string interpolation for the values that reach it in
the client (transaction references are strings). -/
def pyToStr : PyVal → String
  | .none => "None"
  | .bool b => if b then "True" else "False"
  | .num n => toString n
  | .str s => s
  | .dict _ => "{...}"

/-- Interpolation of an optional form value into an f-string
(`None` prints as `"None"`). -/
def optStr : Option String → String
  | some s => s
  | Option.none => "None"

/-- An optional form value passed on as a Python value. -/
def pyOptStr : Option String → PyVal
  | some s => .str s
  | Option.none => .none

/-- Python substring test `needle in hay`. -/
def strContains (hay needle : String) : Bool :=
  decide (needle.data <:+: hay.data)

/-- Python `str.lower`, mapping each character (stated on the character list
so that terms evaluate definitionally). -/
def pyLower (s : String) : String :=
  ⟨s.data.map Char.toLower⟩

/-- Python `str.strip`: remove whitespace from both ends. -/
def pyStrip (s : String) : String :=
  ⟨((s.data.dropWhile Char.isWhitespace).reverse.dropWhile Char.isWhitespace).reverse⟩

/-- An HTTP request as issued by the transport collaborator (`requests.get`
for body-less calls, `requests.post` with a JSON body otherwise). -/
inductive HttpReq where
  | get (url : String) (headers : List (String × String))
  | post (url : String) (body : PyVal) (headers : List (String × String))

/-- Outcome of one transport call: a status code with a parsed JSON body
(a mapping, per the gateway contract), or a raised
`requests.exceptions.RequestException`. -/
inductive HttpResult where
  | response (status : Nat) (body : List (String × PyVal))
  | exc (msg : String)

/-- The external HTTP transport, modelled as an oracle. -/
def Transport : Type := HttpReq → HttpResult

/-- The fixed set of recognized payment methods (`utility.py` line 5). -/
def valid_payment_methods : List String := ["card", "bank-transfer", "qrcode", "ussd"]

/-- Currency resolution (`utility.py` `formatCurrency`): lower-case the name,
look it up in the fixed table, raise `ValueError` on unknown input. -/
def formatCurrency (currency_name : String) : Except String String :=
  let currency_map : List (String × String) :=
    [("ngn", "NGN"), ("usd", "USD"), ("cad", "CAD"), ("gbp", "GBP"),
     ("gh₵", "GH₵"), ("gmd", "GMD"), ("ksh", "Ksh"), ("euro", "EURO")]
  let c := pyLower currency_name
  match currency_map.lookup c with
  | some code => Except.ok code
  | Option.none => Except.error ("Unsupported currency: " ++ c)

/-- Payment-method normalization (`utility.py` `formatPaymentMethods`). -/
def formatPaymentMethods (payment_method : Option String) : String :=
  let fallback := String.intercalate ", " valid_payment_methods
  match payment_method with
  | some s =>
    if s != "" then
      let u := pyLower (pyStrip s)
      if u ∈ valid_payment_methods then u
      else if strContains u "bank" && strContains u "transfer" then "bank-transfer"
      else fallback
    else fallback
  | Option.none => fallback

/-- The fully-specified error records of `handle_payment_status`
(`status_messages` in `utility.py`): code ↦ (message, explanation). -/
def status_messages : List (String × String × String) :=
  [("401", "Unauthorized", "Authentication error. Please verify your API key or token."),
   ("403", "Forbidden", "You do not have permission to perform this action."),
   ("404", "Not Found", "The requested resource could not be found.")]

/-- The generic message table of `handle_payment_status`
(`error_codes` in `utility.py`; `'500'` is commented out in the source). -/
def error_codes : List (String × String) :=
  [("400", "Bad Request"),
   ("401", "Unauthorized"),
   ("403", "Forbidden"),
   ("404", "Not Found"),
   ("405", "Method Not Allowed"),
   ("408", "Request Timeout"),
   ("409", "Conflict"),
   ("410", "Gone"),
   ("422", "Unprocessable"),
   ("429", "Too Many Requests"),
   ("504", "Gateway Timeout"),
   ("507", "Insufficient Storage"),
   ("511", "Network Authentication Required")]

/-- Error translator (`utility.py` `handle_payment_status`): maps a status
code string and the upstream body to an `{errorCode, message, explanation}`
record. -/
def handle_payment_status (status_code : String) (resp : PyVal) : PyVal :=
  match status_messages.lookup status_code with
  | some me =>
    .dict [("errorCode", .str status_code), ("message", .str me.1), ("explanation", .str me.2)]
  | Option.none =>
    .dict [("errorCode", .str status_code),
           ("message", .str ((error_codes.lookup status_code).getD "Unknown error")),
           ("explanation", pyGet resp "errorMessage" (.str "Something went wrong on our end."))]

/-- Request dispatch (`utility.py` `send_payment_request`): an empty payload
issues a GET, otherwise a POST; a 200/201 status returns the raw body; any
other status goes through the error translator; a transport exception
becomes the `RequestException` record.  The function is total: it never
raises. -/
def send_payment_request (t : Transport) (url : String) (payload : PyVal)
    (headers : List (String × String)) : PyVal :=
  let req := if payload.truthy then HttpReq.post url payload headers else HttpReq.get url headers
  match t req with
  | .response status body =>
    if status == 200 || status == 201 then .dict body
    else handle_payment_status (toString status) (.dict body)
  | .exc e =>
    .dict [("errorCode", .str "RequestException"),
           ("message", .str "Error sending request"),
           ("explanation", .str e)]

/-- Modelled from the spec: the endpoint constants (`initiateUrl` and friends)
are defined in a module of this repository that is not under `src/`; §6 of the
spec gives the base path and the per-operation paths. -/
def baseUrl : String := "https://api.merchant.staging.ercaspay.com/api/v1"

/-- Modelled from the spec: initiate endpoint (`POST /payment/initiate`). -/
def initiateUrl : String := baseUrl ++ "/payment/initiate"

/-- Modelled from the spec: cancel endpoint (`/payment/cancel/{ref}`). -/
def cancelUrl : String := baseUrl ++ "/payment/cancel"

/-- Modelled from the spec: verify endpoint (`/payment/transaction/verify/{ref}`). -/
def verifyUrl : String := baseUrl ++ "/payment/transaction/verify"

/-- Modelled from the spec: details endpoint (`/payment/details/{ref}`). -/
def detailsUrl : String := baseUrl ++ "/payment/details"

/-- Modelled from the spec: status endpoint (`/payment/status/{ref}`). -/
def statusUrl : String := baseUrl ++ "/payment/status"

/-- Modelled from the spec: base of the USSD endpoint; the source appends
`/request-ussd-code/{ref}` to it. -/
def ussdUrl : String := baseUrl ++ "/payment/ussd"

/-- Modelled from the spec: bank-details endpoint (bank-details path `/{ref}`). -/
def bankUrl : String := baseUrl ++ "/payment/bank-transfer"

/-- Modelled from the spec: card-payment endpoint (card-payment path). -/
def cardUrl : String := baseUrl ++ "/payment/cards"

/-- Modelled from the spec: `get_transaction_ref` is imported by
`ercaspay.py` but its definition is not under `src/`.  Spec §3/§4.1:
lifecycle calls resolve an omitted explicit reference against the cached
current reference and fail locally with a missing-reference error when
neither is available. -/
def get_transaction_ref (explicit cached : PyVal) : Except String PyVal :=
  if explicit.truthy then Except.ok explicit
  else if cached.truthy then Except.ok cached
  else Except.error "ValueError: no transaction reference provided and none cached"

/-- Modelled from the spec: `encrypt_card` is an external encryption
collaborator producing an opaque payload from the card details and the
configured RSA key (spec §1, §4.1); modelled as an opaque pairing of its
inputs. -/
def encrypt_card (cardDetails rsa_key : PyVal) : PyVal :=
  .dict [("cipher", cardDetails), ("key", rsa_key)]

/-- The `Ercaspay` client state: bearer token, RSA key and the cached
current transaction reference (`self.transaction_ref`, `None` initially). -/
structure Client where
  token : String
  rsa_key : PyVal
  transaction_ref : PyVal

/-- The request headers built in `Ercaspay.__init__`. -/
def Client.headers (c : Client) : List (String × String) :=
  [("Accept", "application/json"), ("Content-Type", "application/json"),
   ("Authorization", "Bearer " ++ c.token)]

/-- `Ercaspay.initiate`: resolve the currency (may raise `ValueError`), build
the payload, send it to the initiate endpoint, and unconditionally overwrite
the cached reference with the response body's `transactionReference` field.
Returns the gateway response together with the updated client. -/
def Client.initiate (c : Client) (t : Transport) (amount : PyVal)
    (customerName customerEmail paymentReference : String)
    (paymentMethods : Option String)
    (customerPhoneNumber redirectUrl description metadata feeBearer : PyVal)
    (currency : String) : Except String (PyVal × Client) := do
  let currency_code ← formatCurrency currency
  let payload : PyVal := .dict
    [("amount", amount),
     ("paymentReference", .str paymentReference),
     ("paymentMethods", .str (formatPaymentMethods paymentMethods)),
     ("customerName", .str customerName),
     ("currency", .str currency_code),
     ("customerEmail", .str customerEmail),
     ("customerPhoneNumber", customerPhoneNumber),
     ("redirectUrl", redirectUrl),
     ("description", description),
     ("metadata", metadata),
     ("feeBearer", feeBearer)]
  let transaction := send_payment_request t initiateUrl payload c.headers
  let cached := pyGet (pyGet transaction "responseBody" (.dict [])) "transactionReference" .none
  return (transaction, { c with transaction_ref := cached })

/-- `Ercaspay.cancel`. -/
def Client.cancel (c : Client) (t : Transport) (transaction_ref : PyVal) :
    Except String PyVal := do
  let ref ← get_transaction_ref transaction_ref c.transaction_ref
  return send_payment_request t (cancelUrl ++ "/" ++ pyToStr ref) (.dict []) c.headers

/-- `Ercaspay.verify`. -/
def Client.verify (c : Client) (t : Transport) (transaction_ref : PyVal) :
    Except String PyVal := do
  let ref ← get_transaction_ref transaction_ref c.transaction_ref
  return send_payment_request t (verifyUrl ++ "/" ++ pyToStr ref) (.dict []) c.headers

/-- `Ercaspay.details`. -/
def Client.details (c : Client) (t : Transport) (transaction_ref : PyVal) :
    Except String PyVal := do
  let ref ← get_transaction_ref transaction_ref c.transaction_ref
  return send_payment_request t (detailsUrl ++ "/" ++ pyToStr ref) (.dict []) c.headers

/-- `Ercaspay.status`: trim/lower-case the payment method, silently fall back
to `bank-transfer` when it is missing or outside the fixed set, and post
`{payment_method, reference}`. -/
def Client.status (c : Client) (t : Transport)
    (transaction_ref reference payment_method : PyVal) : Except String PyVal := do
  let ref ← get_transaction_ref transaction_ref c.transaction_ref
  let pm := if payment_method.truthy then pyLower (pyStrip (pyToStr payment_method))
            else "bank-transfer"
  let pm := if pm ∈ valid_payment_methods then pm else "bank-transfer"
  let payload : PyVal := .dict [("payment_method", .str pm), ("reference", reference)]
  return send_payment_request t (statusUrl ++ "/" ++ pyToStr ref) payload c.headers

/-- `Ercaspay.ussd`: when the amount is `None`, fetch it via `details`; when
the fetched amount is falsy, return the details response unchanged; otherwise
post `{amount, bank_name}` to the USSD-code endpoint. -/
def Client.ussd (c : Client) (t : Transport) (bank_name : String)
    (transaction_ref amount : PyVal) : Except String PyVal := do
  let ref ← get_transaction_ref transaction_ref c.transaction_ref
  if amount.isNone then
    match c.details t ref with
    | Except.error e => Except.error e
    | Except.ok transaction =>
      let amount2 := pyGet (pyGet transaction "responseBody" (.dict [])) "amount" .none
      if !amount2.truthy then Except.ok transaction
      else Except.ok (send_payment_request t
        (ussdUrl ++ "/request-ussd-code/" ++ pyToStr ref)
        (.dict [("amount", amount2), ("bank_name", .str bank_name)]) c.headers)
  else
    Except.ok (send_payment_request t
      (ussdUrl ++ "/request-ussd-code/" ++ pyToStr ref)
      (.dict [("amount", amount), ("bank_name", .str bank_name)]) c.headers)

/-- `Ercaspay.bank`. -/
def Client.bank (c : Client) (t : Transport) (transaction_ref : PyVal) :
    Except String PyVal := do
  let ref ← get_transaction_ref transaction_ref c.transaction_ref
  return send_payment_request t (bankUrl ++ "/" ++ pyToStr ref) (.dict []) c.headers

/-- `Ercaspay.card`: encrypt the card details, assemble the nested device
fingerprint object with its defaulted sub-fields, and post it. -/
def Client.card (c : Client) (t : Transport) (cardDetails browserDetails ipAddress : PyVal)
    (transaction_ref : PyVal) : Except String PyVal := do
  let ref ← get_transaction_ref transaction_ref c.transaction_ref
  let payload : PyVal := .dict
    [("payload", encrypt_card cardDetails c.rsa_key),
     ("transactionReference", ref),
     ("deviceDetails", .dict
       [("payerDeviceDto", .dict
         [("device", .dict
           [("browser", pyGet browserDetails "User-Agent" .none),
            ("browserDetails", .dict
              [("3DSecureChallengeWindowSize",
                 pyGet browserDetails "3DSecureChallengeWindowSize" (.str "FULL_SCREEN")),
               ("acceptHeaders", .str "application/json"),
               ("colorDepth", pyGet browserDetails "colorDepth" .none),
               ("javaEnabled", pyGet browserDetails "javaEnabled" .none),
               ("language", pyGet browserDetails "language" .none),
               ("screenHeight", pyGet browserDetails "screenHeight" .none),
               ("screenWidth", pyGet browserDetails "screenWidth" .none),
               ("timeZone", pyGet browserDetails "timeZone" .none)]),
            ("ipAddress", ipAddress)])])])]
  return send_payment_request t cardUrl payload c.headers

/-- A browser session store as used by the handshake: it holds at most the
CSRF token (key `"csrf_token"`). -/
structure Session where
  csrf_token : Option String
deriving DecidableEq

/-- The `ErcaspayPage` configuration relevant to request handling. -/
structure PageCfg where
  name : String
  description : String
  no_phone : Bool
  redirect_url : String

/-- Submitted form data (`request.form`): `get` yields `None` for a missing
field. -/
def Form : Type := List (String × String)

/-- Python `request.form.get(field)`. -/
def formGet (f : Form) (k : String) : Option String :=
  f.lookup k

/-- Truthiness of an optional form value (`None` and `""` are falsy). -/
def truthyOpt : Option String → Bool
  | some s => s != ""
  | Option.none => false

/-- What a request handler produces when it does not raise. -/
inductive PageOutcome where
  | redirect (url : PyVal)
  | abort (code : PyVal) (descr : Option PyVal)
  | render (csrf : String)

/-- Result of one `POST /ercaspay` submission: the handler's outcome (or the
uncaught Python exception), plus the session and client after the request —
the session mutation survives a later exception, as in Flask. -/
structure PostResult where
  outcome : Except String PageOutcome
  session : Session
  client : Client

/-- The `before_request` hook `generate_csrf_token`: mint a token if the
session has none.  `fresh` stands for the drawn `secrets.token_hex(16)`. -/
def generate_csrf_token (s : Session) (fresh : String) : Session :=
  if s.csrf_token.isNone then { csrf_token := some fresh } else s

/-- The `POST` branch of the `payment_page` handler: CSRF check (the session
token is popped before the outcome of the check is acted upon), required-field
check, then `initiate` and either a redirect to the checkout URL or the
gateway-error abort.  `paymentReference` stands for the generated
`<uuid4-hex>_<timestamp>` value. -/
def payment_page_post (cfg : PageCfg) (c : Client) (t : Transport) (s : Session)
    (form : Form) (host_url paymentReference : String) : PostResult :=
  let token := formGet form "csrf_token"
  let valid : Bool :=
    match token with
    | some tk => tk != "" && decide (s.csrf_token = some tk)
    | Option.none => false
  let s2 : Session := { csrf_token := Option.none }
  if !valid then ⟨Except.ok (.abort (.num 403) Option.none), s2, c⟩
  else
    let first_name := formGet form "first_name"
    let last_name := formGet form "last_name"
    let full_name := optStr first_name ++ " " ++ optStr last_name
    let email := formGet form "email"
    let amount := formGet form "amount"
    let phone_number := if !cfg.no_phone then formGet form "phone_number" else Option.none
    let required_fields :=
      ["first_name", "last_name", "email", "amount"] ++
        (if !cfg.no_phone then ["phone_number"] else [])
    if !(required_fields.all fun fld => truthyOpt (formGet form fld)) then
      ⟨Except.ok (.abort (.num 400) Option.none), s2, c⟩
    else
      let auth_url := host_url ++ "ercaspay/auth"
      match c.initiate t (pyOptStr amount) full_name (optStr email) paymentReference
          Option.none (pyOptStr phone_number) (.str auth_url) .none .none .none "NGN" with
      | Except.error e => ⟨Except.error e, s2, c⟩
      | Except.ok (response, c2) =>
        let checkoutUrl := pyGet (pyGet response "responseBody" (.dict [])) "checkoutUrl" .none
        if !checkoutUrl.isNone then ⟨Except.ok (.redirect checkoutUrl), s2, c2⟩
        else
          match pyGetItem response "errorCode" with
          | Except.error e => ⟨Except.error e, s2, c2⟩
          | Except.ok code =>
            match pyGetItem response "errorMessage" with
            | Except.error e => ⟨Except.error e, s2, c2⟩
            | Except.ok msg => ⟨Except.ok (.abort code (some msg)), s2, c2⟩

/-- The `GET` branch of the `payment_page` handler: render the form with the
session's token (present after `before_request`). -/
def payment_page_get (s : Session) : Except String PageOutcome :=
  match s.csrf_token with
  | some tk => Except.ok (.render tk)
  | Option.none => Except.error "KeyError: csrf_token"

/-- Result of one `GET /ercaspay/auth` callback: the handler's outcome (or
the uncaught exception), and the verified response handed to the
`create_transaction` callback when it was invoked. -/
structure AuthResult where
  outcome : Except String PageOutcome
  created : Option PyVal

/-- The `auth_page` callback handler: require `transRef`, re-verify it via
the client, surface a reported error code, invoke the completion callback
only when the verified response carries a status, then redirect. -/
def auth_page (cfg : PageCfg) (c : Client) (t : Transport)
    (transRef : Option String) : AuthResult :=
  if truthyOpt transRef then
    match c.verify t (pyOptStr transRef) with
    | Except.error e => ⟨Except.error e, Option.none⟩
    | Except.ok response =>
      if (pyGet response "errorCode" .none).truthy then
        match pyGetItem response "errorCode" with
        | Except.error e => ⟨Except.error e, Option.none⟩
        | Except.ok code =>
          match pyGetItem response "errorMessage" with
          | Except.error e => ⟨Except.error e, Option.none⟩
          | Except.ok msg => ⟨Except.ok (.abort code (some msg)), Option.none⟩
      else
        let st := pyGet (pyGet response "responseBody" (.dict [])) "status" .none
        if st.truthy then ⟨Except.ok (.redirect (.str cfg.redirect_url)), some response⟩
        else ⟨Except.ok (.redirect (.str cfg.redirect_url)), Option.none⟩
  else ⟨Except.ok (.abort (.num 400) Option.none), Option.none⟩

/-- A transport oracle that always reports HTTP 400 with an empty JSON body. -/
def alwaysBadRequest : Transport := fun _ => .response 400 []

/-- A transport oracle whose calls always raise a request exception. -/
def alwaysExc : Transport := fun _ => .exc "boom"

/-- A fresh client with no cached transaction reference. -/
def freshClient : Client := ⟨"tok", .none, .none⟩

/-- A client whose cached current reference is `"R"`. -/
def clientWithRef : Client := ⟨"tok", .none, .str "R"⟩

/-- A sample page configuration. -/
def sampleCfg : PageCfg := ⟨"shop", "", true, "/"⟩

/-- A complete, CSRF-tagged checkout form submission. -/
def sampleForm : Form :=
  [("csrf_token", "a"), ("first_name", "John"), ("last_name", "Doe"),
   ("email", "j@d.com"), ("amount", "100")]

theorem except_ok_bind {ε α β : Type} (a : α) (f : α → Except ε β) :
    (Except.ok a : Except ε α) >>= f = f a := rfl

theorem except_error_bind {ε α β : Type} (e : ε) (f : α → Except ε β) :
    (Except.error e : Except ε α) >>= f = Except.error e := rfl

theorem joined_eval :
    String.intercalate ", " valid_payment_methods = "card, bank-transfer, qrcode, ussd" := rfl

theorem pyToStr_str (s : String) : pyToStr (.str s) = s := rfl

theorem handle_payment_status_shape (s : String) (resp : PyVal) :
    ∃ msg expl, handle_payment_status s resp =
      PyVal.dict [("errorCode", .str s), ("message", msg), ("explanation", expl)] := by
  cases h : status_messages.lookup s with
  | none =>
    exact ⟨.str ((error_codes.lookup s).getD "Unknown error"),
      pyGet resp "errorMessage" (.str "Something went wrong on our end."),
      by simp [handle_payment_status, h]⟩
  | some me => exact ⟨.str me.1, .str me.2, by simp [handle_payment_status, h]⟩

/-- Claim C2: `send_payment_request` hands back the raw JSON body unchanged
when the HTTP status is 200 or 201, an `{errorCode, message, explanation}`
mapping for any other status, and the fixed `RequestException` record with
the exception text as explanation when the transport call itself raises; it
is a total function of the transport outcome, so it never raises. -/
theorem C2_send_payment_request_total (t : Transport) (url : String) (payload : PyVal)
    (headers : List (String × String)) (status : Nat) (body : List (String × PyVal))
    (e : String) :
    ((∀ q, t q = .response status body) → (status = 200 ∨ status = 201) →
       send_payment_request t url payload headers = .dict body)
  ∧ ((∀ q, t q = .response status body) → status ≠ 200 → status ≠ 201 →
       ∃ msg expl, send_payment_request t url payload headers =
         .dict [("errorCode", .str (toString status)), ("message", msg), ("explanation", expl)])
  ∧ ((∀ q, t q = .exc e) →
       send_payment_request t url payload headers =
         .dict [("errorCode", .str "RequestException"),
                ("message", .str "Error sending request"),
                ("explanation", .str e)]) := by
  refine ⟨?_, ?_, ?_⟩
  · intro ht h2xx
    rcases h2xx with h | h <;> simp [send_payment_request, ht, h]
  · intro ht h200 h201
    have hfalse : (status == 200 || status == 201) = false := by
      simp [h200, h201]
    simpa [send_payment_request, ht, hfalse] using
      handle_payment_status_shape (toString status) (.dict body)
  · intro ht
    simp [send_payment_request, ht]

/-- Claim C2 witness. -/
theorem C2_witness :
    (∀ q, alwaysExc q = HttpResult.exc "boom")
  ∧ send_payment_request alwaysExc initiateUrl (.dict []) [] =
      .dict [("errorCode", .str "RequestException"),
             ("message", .str "Error sending request"),
             ("explanation", .str "boom")] :=
  ⟨fun _ => rfl,
   (C2_send_payment_request_total alwaysExc initiateUrl (.dict []) [] 0 [] "boom").2.2
     (fun _ => rfl)⟩

/-- Claim C3: the error translator maps 401/403/404 to their fully-specified
message/explanation records verbatim; each code of the generic table to its
exact message with the explanation drawn from the body's `errorMessage` field
when present and the fixed fallback otherwise; and every other code string,
500 included, to message `"Unknown error"`. -/
theorem C3_handle_payment_status_table (resp : PyVal) :
    (handle_payment_status "401" resp =
       .dict [("errorCode", .str "401"), ("message", .str "Unauthorized"),
              ("explanation", .str "Authentication error. Please verify your API key or token.")])
  ∧ (handle_payment_status "403" resp =
       .dict [("errorCode", .str "403"), ("message", .str "Forbidden"),
              ("explanation", .str "You do not have permission to perform this action.")])
  ∧ (handle_payment_status "404" resp =
       .dict [("errorCode", .str "404"), ("message", .str "Not Found"),
              ("explanation", .str "The requested resource could not be found.")])
  ∧ (∀ code msg, (code, msg) ∈
        ([("400", "Bad Request"), ("405", "Method Not Allowed"),
          ("408", "Request Timeout"), ("409", "Conflict"), ("410", "Gone"),
          ("422", "Unprocessable"), ("429", "Too Many Requests"),
          ("504", "Gateway Timeout"), ("507", "Insufficient Storage"),
          ("511", "Network Authentication Required")] : List (String × String)) →
      ∀ entries : List (String × PyVal),
        (∀ v, entries.lookup "errorMessage" = some v →
          handle_payment_status code (.dict entries) =
            .dict [("errorCode", .str code), ("message", .str msg), ("explanation", v)])
        ∧ (entries.lookup "errorMessage" = Option.none →
          handle_payment_status code (.dict entries) =
            .dict [("errorCode", .str code), ("message", .str msg),
                   ("explanation", .str "Something went wrong on our end.")]))
  ∧ (∀ s : String,
       s ∉ (["400", "401", "403", "404", "405", "408", "409", "410", "422",
             "429", "504", "507", "511"] : List String) →
       pyGet (handle_payment_status s resp) "message" .none = .str "Unknown error")
  ∧ (pyGet (handle_payment_status "500" resp) "message" .none = .str "Unknown error") := by
  refine ⟨rfl, rfl, rfl, ?_, ?_, rfl⟩
  · intro code msg hmem entries
    constructor
    · intro v hv
      fin_cases hmem <;>
        simp [handle_payment_status, status_messages, error_codes, pyGet, List.lookup, hv]
    · intro hnone
      fin_cases hmem <;>
        simp [handle_payment_status, status_messages, error_codes, pyGet, List.lookup, hnone]
  · intro s hs
    simp only [List.mem_cons, List.not_mem_nil, or_false, not_or] at hs
    obtain ⟨h1, h2, h3, h4, h5, h6, h7, h8, h9, h10, h11, h12, h13⟩ := hs
    simp [handle_payment_status, status_messages, error_codes, pyGet, List.lookup,
      beq_eq_false_iff_ne.mpr h1, beq_eq_false_iff_ne.mpr h2, beq_eq_false_iff_ne.mpr h3,
      beq_eq_false_iff_ne.mpr h4, beq_eq_false_iff_ne.mpr h5, beq_eq_false_iff_ne.mpr h6,
      beq_eq_false_iff_ne.mpr h7, beq_eq_false_iff_ne.mpr h8, beq_eq_false_iff_ne.mpr h9,
      beq_eq_false_iff_ne.mpr h10, beq_eq_false_iff_ne.mpr h11, beq_eq_false_iff_ne.mpr h12,
      beq_eq_false_iff_ne.mpr h13]

/-- Claim C3 witness. -/
theorem C3_witness :
    ("500" : String) ∉ (["400", "401", "403", "404", "405", "408", "409", "410",
        "422", "429", "504", "507", "511"] : List String)
  ∧ pyGet (handle_payment_status "500" (.dict [("errorMessage", .str "x")])) "message" .none
      = .str "Unknown error" :=
  ⟨by decide,
   (C3_handle_payment_status_table (.dict [("errorMessage", .str "x")])).2.2.2.2.1
     "500" (by decide)⟩

/-- Claim C6: a recognized currency name in any letter case resolves to the
fixed canonical code from the table; any unrecognized name raises a local
`ValueError` instead of returning an error mapping. -/
theorem C6_formatCurrency_resolution (s : String) :
    (pyLower s = "ngn" → formatCurrency s = Except.ok "NGN")
  ∧ (pyLower s = "usd" → formatCurrency s = Except.ok "USD")
  ∧ (pyLower s = "cad" → formatCurrency s = Except.ok "CAD")
  ∧ (pyLower s = "gbp" → formatCurrency s = Except.ok "GBP")
  ∧ (pyLower s = "gh₵" → formatCurrency s = Except.ok "GH₵")
  ∧ (pyLower s = "gmd" → formatCurrency s = Except.ok "GMD")
  ∧ (pyLower s = "ksh" → formatCurrency s = Except.ok "Ksh")
  ∧ (pyLower s = "euro" → formatCurrency s = Except.ok "EURO")
  ∧ (pyLower s ∉ (["ngn", "usd", "cad", "gbp", "gh₵", "gmd", "ksh", "euro"] : List String) →
      formatCurrency s = Except.error ("Unsupported currency: " ++ pyLower s)) := by
  refine ⟨?_, ?_, ?_, ?_, ?_, ?_, ?_, ?_, ?_⟩
  all_goals intro h
  · simp [formatCurrency, List.lookup, h]
  · simp [formatCurrency, List.lookup, h]
  · simp [formatCurrency, List.lookup, h]
  · simp [formatCurrency, List.lookup, h]
  · simp [formatCurrency, List.lookup, h]
  · simp [formatCurrency, List.lookup, h]
  · simp [formatCurrency, List.lookup, h]
  · simp [formatCurrency, List.lookup, h]
  · simp only [List.mem_cons, List.not_mem_nil, or_false, not_or] at h
    obtain ⟨h1, h2, h3, h4, h5, h6, h7, h8⟩ := h
    simp [formatCurrency, List.lookup,
      beq_eq_false_iff_ne.mpr h1, beq_eq_false_iff_ne.mpr h2, beq_eq_false_iff_ne.mpr h3,
      beq_eq_false_iff_ne.mpr h4, beq_eq_false_iff_ne.mpr h5, beq_eq_false_iff_ne.mpr h6,
      beq_eq_false_iff_ne.mpr h7, beq_eq_false_iff_ne.mpr h8]

/-- Claim C6 witness. -/
theorem C6_witness :
    pyLower "NgN" = "ngn" ∧ formatCurrency "NgN" = Except.ok "NGN" :=
  ⟨by decide, (C6_formatCurrency_resolution "NgN").1 (by decide)⟩

/-- Claim C7: payment-method normalization — any string whose trimmed,
lower-cased form contains both "bank" and "transfer" normalizes to
`bank-transfer`; a member of the fixed set after trim/lower-case is returned
as-is; any other value, `None` included, yields the comma-joined enumerated
set; consequently `initiate` with currency `"ngn"` and no payment methods
posts a body with currency `"NGN"` and the comma-joined set. -/
theorem C7_formatPaymentMethods_normalization (c : Client) (t : Transport) :
    (∀ s : String, strContains (pyLower (pyStrip s)) "bank" →
        strContains (pyLower (pyStrip s)) "transfer" →
        formatPaymentMethods (some s) = "bank-transfer")
  ∧ (∀ s : String, pyLower (pyStrip s) ∈ valid_payment_methods →
        formatPaymentMethods (some s) = pyLower (pyStrip s))
  ∧ (∀ s : String, pyLower (pyStrip s) ∉ valid_payment_methods →
        ¬(strContains (pyLower (pyStrip s)) "bank"
            ∧ strContains (pyLower (pyStrip s)) "transfer") →
        formatPaymentMethods (some s) = "card, bank-transfer, qrcode, ussd")
  ∧ formatPaymentMethods Option.none = "card, bank-transfer, qrcode, ussd"
  ∧ (∃ c2 : Client, c.initiate t (.num 10000) "John Doe" "johndoe@gmail.com" "ref-1"
        Option.none .none .none .none .none .none "ngn"
      = Except.ok (send_payment_request t initiateUrl (PyVal.dict
          [("amount", .num 10000),
           ("paymentReference", .str "ref-1"),
           ("paymentMethods", .str "card, bank-transfer, qrcode, ussd"),
           ("customerName", .str "John Doe"),
           ("currency", .str "NGN"),
           ("customerEmail", .str "johndoe@gmail.com"),
           ("customerPhoneNumber", .none),
           ("redirectUrl", .none),
           ("description", .none),
           ("metadata", .none),
           ("feeBearer", .none)]) c.headers, c2)) := by
  refine ⟨?_, ?_, ?_, rfl, ⟨_, rfl⟩⟩
  · intro s hb ht
    by_cases hs : s = ""
    · rw [hs] at hb
      exact absurd hb (by decide)
    · have hne : (s != "") = true := by simp [hs]
      by_cases hmem : pyLower (pyStrip s) ∈ valid_payment_methods
      · have hcases := hmem
        simp only [valid_payment_methods, List.mem_cons, List.not_mem_nil, or_false] at hcases
        rcases hcases with h | h | h | h
        · rw [h] at hb; exact absurd hb (by decide)
        · simp [formatPaymentMethods, hne, h, valid_payment_methods]
        · rw [h] at hb; exact absurd hb (by decide)
        · rw [h] at hb; exact absurd hb (by decide)
      · simp [formatPaymentMethods, hne, hmem, hb, ht]
  · intro s hmem
    have hs : s ≠ "" := by
      intro hs
      rw [hs] at hmem
      exact absurd hmem (by decide)
    have hne : (s != "") = true := by simp [hs]
    simp [formatPaymentMethods, hne, hmem]
  · intro s hmem hnot
    by_cases hs : s = ""
    · rw [hs]; rfl
    · have hne : (s != "") = true := by simp [hs]
      have hband : (strContains (pyLower (pyStrip s)) "bank"
          && strContains (pyLower (pyStrip s)) "transfer") = false := by
        cases hb1 : strContains (pyLower (pyStrip s)) "bank"
        · simp
        · cases hb2 : strContains (pyLower (pyStrip s)) "transfer"
          · simp
          · exact absurd ⟨hb1, hb2⟩ hnot
      simp [formatPaymentMethods, hne, hmem, hband, joined_eval]

/-- Claim C7 witness. -/
theorem C7_witness :
    strContains (pyLower (pyStrip " Bank TRANSFER ")) "bank" = true
  ∧ strContains (pyLower (pyStrip " Bank TRANSFER ")) "transfer" = true
  ∧ formatPaymentMethods (some " Bank TRANSFER ") = "bank-transfer" :=
  ⟨by decide, by decide,
   (C7_formatPaymentMethods_normalization freshClient alwaysExc).1 " Bank TRANSFER "
     (by decide) (by decide)⟩

/-- Claim C8: `status` trims and lower-cases the payment method and silently
falls back to `bank-transfer` for any value outside the fixed set — a
missing value included — never rejecting it; the body posted is exactly
`{payment_method, reference}`. -/
theorem C8_status_lenient_fallback (c : Client) (t : Transport) (r : String)
    (reference pm : PyVal) (hr : r ≠ "") :
    ((pm.truthy = true → pyLower (pyStrip (pyToStr pm)) ∉ valid_payment_methods) →
      c.status t (.str r) reference pm = Except.ok (send_payment_request t
        (statusUrl ++ "/" ++ r)
        (.dict [("payment_method", .str "bank-transfer"), ("reference", reference)])
        c.headers))
  ∧ (pm.truthy = true → pyLower (pyStrip (pyToStr pm)) ∈ valid_payment_methods →
      c.status t (.str r) reference pm = Except.ok (send_payment_request t
        (statusUrl ++ "/" ++ r)
        (.dict [("payment_method", .str (pyLower (pyStrip (pyToStr pm)))),
                ("reference", reference)])
        c.headers)) := by
  have hget : get_transaction_ref (.str r) c.transaction_ref = Except.ok (.str r) := by
    simp [get_transaction_ref, PyVal.truthy, hr]
  constructor
  · intro hout
    cases htr : pm.truthy
    · simp [Client.status, hget, htr, pyToStr_str, valid_payment_methods, except_ok_bind]
    · simp [Client.status, hget, htr, pyToStr_str, hout htr, except_ok_bind]
  · intro htr hmem
    simp [Client.status, hget, htr, pyToStr_str, hmem, except_ok_bind]

/-- Claim C8 witness: an unsupported method (`"PAYPAL"`) is sent as
`bank-transfer`. -/
theorem C8_witness :
    ("R" : String) ≠ ""
  ∧ ((PyVal.str "PAYPAL").truthy = true →
       pyLower (pyStrip (pyToStr (.str "PAYPAL"))) ∉ valid_payment_methods)
  ∧ clientWithRef.status alwaysExc (.str "R") (.str "X") (.str "PAYPAL")
      = Except.ok (send_payment_request alwaysExc (statusUrl ++ "/" ++ "R")
          (.dict [("payment_method", .str "bank-transfer"), ("reference", .str "X")])
          clientWithRef.headers) :=
  ⟨by decide, by decide,
   (C8_status_lenient_fallback clientWithRef alwaysExc "R" (.str "X") (.str "PAYPAL")
      (by decide)).1 (by decide)⟩

/-- Claim C4: every lifecycle operation taking an optional reference
(cancel, verify, details, status, ussd, bank, card) falls back to the cached
current reference when no explicit reference is given, and fails locally
with a raised error — not a Gateway Response mapping — when no reference is
given and none is cached.  Reference resolution is `get_transaction_ref`,
modelled from the spec because its definition is not under `src/`. -/
theorem C4_lifecycle_reference_fallback (c cn : Client) (t : Transport) (r bn : String)
    (reference pm amt cd bd ip : PyVal)
    (hr : r ≠ "") (hc : c.transaction_ref = .str r) (hn : cn.transaction_ref = .none) :
    (c.cancel t .none = c.cancel t (.str r)
      ∧ c.verify t .none = c.verify t (.str r)
      ∧ c.details t .none = c.details t (.str r)
      ∧ c.status t .none reference pm = c.status t (.str r) reference pm
      ∧ c.ussd t bn .none amt = c.ussd t bn (.str r) amt
      ∧ c.bank t .none = c.bank t (.str r)
      ∧ c.card t cd bd ip .none = c.card t cd bd ip (.str r))
  ∧ c.cancel t .none
      = Except.ok (send_payment_request t (cancelUrl ++ "/" ++ r) (.dict []) c.headers)
  ∧ (cn.cancel t .none
       = Except.error "ValueError: no transaction reference provided and none cached"
      ∧ cn.verify t .none
        = Except.error "ValueError: no transaction reference provided and none cached"
      ∧ cn.details t .none
        = Except.error "ValueError: no transaction reference provided and none cached"
      ∧ cn.status t .none reference pm
        = Except.error "ValueError: no transaction reference provided and none cached"
      ∧ cn.ussd t bn .none amt
        = Except.error "ValueError: no transaction reference provided and none cached"
      ∧ cn.bank t .none
        = Except.error "ValueError: no transaction reference provided and none cached"
      ∧ cn.card t cd bd ip .none
        = Except.error "ValueError: no transaction reference provided and none cached") := by
  have hg1 : get_transaction_ref .none (PyVal.str r) = Except.ok (.str r) := by
    simp [get_transaction_ref, PyVal.truthy, hr]
  have hg2 : get_transaction_ref (PyVal.str r) (PyVal.str r) = Except.ok (.str r) := by
    simp [get_transaction_ref, PyVal.truthy, hr]
  have hge : get_transaction_ref .none .none
      = Except.error "ValueError: no transaction reference provided and none cached" := by
    simp [get_transaction_ref, PyVal.truthy]
  refine ⟨⟨?_, ?_, ?_, ?_, ?_, ?_, ?_⟩, ?_, ?_, ?_, ?_, ?_, ?_, ?_, ?_⟩
  · simp [Client.cancel, hc, hg1, hg2]
  · simp [Client.verify, hc, hg1, hg2]
  · simp [Client.details, hc, hg1, hg2]
  · simp [Client.status, hc, hg1, hg2]
  · simp [Client.ussd, hc, hg1, hg2]
  · simp [Client.bank, hc, hg1, hg2]
  · simp [Client.card, hc, hg1, hg2]
  · simp [Client.cancel, hc, hg1, pyToStr_str, except_ok_bind]
  · simp [Client.cancel, hn, hge, except_error_bind]
  · simp [Client.verify, hn, hge, except_error_bind]
  · simp [Client.details, hn, hge, except_error_bind]
  · simp [Client.status, hn, hge, except_error_bind]
  · simp [Client.ussd, hn, hge, except_error_bind]
  · simp [Client.bank, hn, hge, except_error_bind]
  · simp [Client.card, hn, hge, except_error_bind]

/-- Claim C4 witness. -/
theorem C4_witness :
    ("R" : String) ≠ ""
  ∧ clientWithRef.transaction_ref = PyVal.str "R"
  ∧ freshClient.transaction_ref = PyVal.none
  ∧ clientWithRef.cancel alwaysExc .none = clientWithRef.cancel alwaysExc (.str "R")
  ∧ freshClient.cancel alwaysExc .none
      = Except.error "ValueError: no transaction reference provided and none cached" :=
  ⟨by decide, rfl, rfl,
   (C4_lifecycle_reference_fallback clientWithRef freshClient alwaysExc "R" "gtb"
      .none .none .none .none .none .none (by decide) rfl rfl).1.1,
   (C4_lifecycle_reference_fallback clientWithRef freshClient alwaysExc "R" "gtb"
      .none .none .none .none .none .none (by decide) rfl rfl).2.2.1⟩

/-- Claim C9: `ussd` with the amount omitted first fetches it via `details`;
when the details response carries no truthy amount, that response is
returned unchanged and the result does not depend on the transport's
behaviour at any other request (no USSD request is made); otherwise
`{amount, bank_name}` is posted to the USSD-code endpoint for the resolved
reference. -/
theorem C9_ussd_amount_fetch (c : Client) (t t2 : Transport) (bn r : String) (hr : r ≠ "") :
    ((pyGet (pyGet (send_payment_request t (detailsUrl ++ "/" ++ r) (.dict []) c.headers)
        "responseBody" (.dict [])) "amount" .none).truthy = false →
      (c.ussd t bn (.str r) .none
         = Except.ok (send_payment_request t (detailsUrl ++ "/" ++ r) (.dict []) c.headers)
       ∧ (t2 (HttpReq.get (detailsUrl ++ "/" ++ r) c.headers)
            = t (HttpReq.get (detailsUrl ++ "/" ++ r) c.headers) →
          c.ussd t2 bn (.str r) .none = c.ussd t bn (.str r) .none)))
  ∧ (∀ a : PyVal,
      pyGet (pyGet (send_payment_request t (detailsUrl ++ "/" ++ r) (.dict []) c.headers)
        "responseBody" (.dict [])) "amount" .none = a → a.truthy = true →
      c.ussd t bn (.str r) .none
        = Except.ok (send_payment_request t (ussdUrl ++ "/request-ussd-code/" ++ r)
            (.dict [("amount", a), ("bank_name", .str bn)]) c.headers)) := by
  have hget : get_transaction_ref (.str r) c.transaction_ref = Except.ok (.str r) := by
    simp [get_transaction_ref, PyVal.truthy, hr]
  have hdet : c.details t (.str r)
      = Except.ok (send_payment_request t (detailsUrl ++ "/" ++ r) (.dict []) c.headers) := by
    simp [Client.details, hget, pyToStr_str, except_ok_bind]
  constructor
  · intro hfalsy
    constructor
    · simp [Client.ussd, hget, hdet, pyToStr_str, PyVal.isNone, hfalsy, except_ok_bind]
    · intro hagree
      have hsend : send_payment_request t2 (detailsUrl ++ "/" ++ r) (.dict []) c.headers
          = send_payment_request t (detailsUrl ++ "/" ++ r) (.dict []) c.headers := by
        simp [send_payment_request, PyVal.truthy, hagree]
      have hdet2 : c.details t2 (.str r)
          = Except.ok (send_payment_request t (detailsUrl ++ "/" ++ r) (.dict []) c.headers) := by
        simp [Client.details, hget, pyToStr_str, except_ok_bind, hsend]
      simp [Client.ussd, hget, hdet, hdet2, pyToStr_str, PyVal.isNone, hfalsy, except_ok_bind]
  · intro a ha htruthy
    simp [Client.ussd, hget, hdet, pyToStr_str, PyVal.isNone, ha, htruthy, except_ok_bind]

/-- Claim C9 witness: a transport that always raises yields a details
response (the `RequestException` record) with no amount, which `ussd`
returns unchanged. -/
theorem C9_witness :
    ("R" : String) ≠ ""
  ∧ (pyGet (pyGet (send_payment_request alwaysExc (detailsUrl ++ "/" ++ "R") (.dict [])
        clientWithRef.headers) "responseBody" (.dict [])) "amount" .none).truthy = false
  ∧ clientWithRef.ussd alwaysExc "gtbank" (.str "R") .none
      = Except.ok (send_payment_request alwaysExc (detailsUrl ++ "/" ++ "R") (.dict [])
          clientWithRef.headers) :=
  ⟨by decide, by decide,
   ((C9_ussd_amount_fetch clientWithRef alwaysExc alwaysExc "gtbank" "R" (by decide)).1
     (by decide)).1⟩

/-- Claim C10: `initiate` unconditionally overwrites the cached current
reference with the response body's `transactionReference` field; when the
response carries no such field the cache becomes `None` — erasing a
reference cached by an earlier successful initiate — so a subsequent
lifecycle call with no explicit reference fails locally. -/
theorem C10_initiate_overwrites_cache (c c2 : Client) (t : Transport) (r : String)
    (amount : PyVal) (nm em pr cur : String) (pmeth : Option String)
    (ph ru de me fb : PyVal) (resp : PyVal)
    (_hc : c.transaction_ref = .str r)
    (hinit : c.initiate t amount nm em pr pmeth ph ru de me fb cur
      = Except.ok (resp, c2)) :
    c2.transaction_ref
      = pyGet (pyGet resp "responseBody" (.dict [])) "transactionReference" .none
    ∧ (pyGet (pyGet resp "responseBody" (.dict [])) "transactionReference" .none = .none →
        c2.transaction_ref = .none
        ∧ c2.cancel t .none
            = Except.error "ValueError: no transaction reference provided and none cached") := by
  cases hcur : formatCurrency cur with
  | error e => simp [Client.initiate, hcur, except_error_bind] at hinit
  | ok code =>
    simp only [Client.initiate, hcur, except_ok_bind, pure, Except.pure,
      Except.ok.injEq, Prod.mk.injEq] at hinit
    obtain ⟨hresp, hc2⟩ := hinit
    subst hresp
    subst hc2
    refine ⟨rfl, fun hnone => ⟨hnone, ?_⟩⟩
    simp [Client.cancel, get_transaction_ref, PyVal.truthy, hnone, except_error_bind]

/-- Claim C10 witness: a transport failure yields a response with no
`transactionReference`, so the cache previously holding `"R"` becomes
`None` and a subsequent `cancel` with no explicit reference fails. -/
theorem C10_witness :
    clientWithRef.transaction_ref = PyVal.str "R"
  ∧ clientWithRef.initiate alwaysExc (.num 1) "n" "e" "p" Option.none
      .none .none .none .none .none "NGN"
      = Except.ok (.dict [("errorCode", .str "RequestException"),
          ("message", .str "Error sending request"), ("explanation", .str "boom")],
          (⟨"tok", .none, .none⟩ : Client))
  ∧ (⟨"tok", .none, .none⟩ : Client).transaction_ref = .none
  ∧ (⟨"tok", .none, .none⟩ : Client).cancel alwaysExc .none
      = Except.error "ValueError: no transaction reference provided and none cached" :=
  ⟨rfl, rfl,
   ((C10_initiate_overwrites_cache clientWithRef ⟨"tok", .none, .none⟩ alwaysExc "R"
      (.num 1) "n" "e" "p" "NGN" Option.none .none .none .none .none .none
      (.dict [("errorCode", .str "RequestException"),
        ("message", .str "Error sending request"), ("explanation", .str "boom")])
      rfl rfl).2 rfl).1,
   ((C10_initiate_overwrites_cache clientWithRef ⟨"tok", .none, .none⟩ alwaysExc "R"
      (.num 1) "n" "e" "p" "NGN" Option.none .none .none .none .none .none
      (.dict [("errorCode", .str "RequestException"),
        ("message", .str "Error sending request"), ("explanation", .str "boom")])
      rfl rfl).2 rfl).2⟩

theorem payment_page_post_pops_session (cfg : PageCfg) (c : Client) (t : Transport)
    (s : Session) (form : Form) (hu pr : String) :
    (payment_page_post cfg c t s form hu pr).session = ⟨Option.none⟩ := by
  simp only [payment_page_post]
  repeat' split
  all_goals rfl

/-- Claim C5: the session CSRF token is single-use — minted on the first
request of a session when absent, removed by any form submission before the
validity outcome is acted upon, a mismatching submission is rejected with
403, and a second submission reusing a previously issued token is rejected
because the freshly minted replacement differs from it. -/
theorem C5_csrf_token_single_use (cfg : PageCfg) (c : Client) (t : Transport)
    (form : Form) (hu pr f c1 : String) (s : Session) :
    generate_csrf_token ⟨Option.none⟩ f = ⟨some f⟩
  ∧ (payment_page_post cfg c t s form hu pr).session = ⟨Option.none⟩
  ∧ ((match formGet form "csrf_token" with
      | some tk => tk = "" ∨ s.csrf_token ≠ some tk
      | Option.none => True) →
      (payment_page_post cfg c t s form hu pr).outcome
        = Except.ok (.abort (.num 403) Option.none))
  ∧ (c1 ≠ "" → formGet form "csrf_token" = some c1 →
      ((payment_page_post cfg c t ⟨some c1⟩ form hu pr).outcome
          ≠ Except.ok (.abort (.num 403) Option.none)
       ∧ (f ≠ c1 →
          (payment_page_post cfg c t
              (generate_csrf_token (payment_page_post cfg c t ⟨some c1⟩ form hu pr).session f)
              form hu pr).outcome
            = Except.ok (.abort (.num 403) Option.none)))) := by
  refine ⟨rfl, payment_page_post_pops_session cfg c t s form hu pr, ?_, ?_⟩
  · intro hbad
    cases htok : formGet form "csrf_token" with
    | none => simp [payment_page_post, htok]
    | some tk =>
      rw [htok] at hbad
      rcases hbad with hbad | hbad
      · simp [payment_page_post, htok, hbad]
      · simp [payment_page_post, htok, hbad]
  · intro hc1 htok
    constructor
    · simp only [payment_page_post, htok]
      repeat' split
      all_goals simp_all
    · intro hf
      rw [payment_page_post_pops_session]
      have hmint : generate_csrf_token ⟨Option.none⟩ f = ⟨some f⟩ := rfl
      rw [hmint]
      simp [payment_page_post, htok, hf]

/-- Claim C5 witness: the token `"a"` issued to the session is consumed by
the first submission, and resubmitting `"a"` after a fresh token `"b"` was
minted is rejected with 403. -/
theorem C5_witness :
    ("a" : String) ≠ ""
  ∧ formGet sampleForm "csrf_token" = some "a"
  ∧ ("b" : String) ≠ "a"
  ∧ (payment_page_post sampleCfg freshClient alwaysExc
        (generate_csrf_token
          (payment_page_post sampleCfg freshClient alwaysExc ⟨some "a"⟩ sampleForm
            "http://host/" "ref-1").session "b")
        sampleForm "http://host/" "ref-1").outcome
      = Except.ok (.abort (.num 403) Option.none) :=
  ⟨by decide, rfl, by decide,
   ((C5_csrf_token_single_use sampleCfg freshClient alwaysExc sampleForm
       "http://host/" "ref-1" "b" "a" ⟨some "a"⟩).2.2.2 (by decide) rfl).2 (by decide)⟩

/-- Claim C1 (code bug): when the initiate response carries no checkout URL,
or the verify response carries an errorCode, the handlers evaluate
`response['errorMessage']` — but the translated Gateway Response mapping
stores its error message under the key `'message'`, so both abort sites
raise `KeyError` instead of aborting with the mapping's error message.  The
last conjunct exhibits the mapping produced for the failing input. -/
theorem C1_error_surfacing_raises_keyerror :
    (payment_page_post sampleCfg freshClient alwaysBadRequest ⟨some "a"⟩ sampleForm
        "http://host/" "ref-1").outcome = Except.error "KeyError: errorMessage"
  ∧ (auth_page sampleCfg freshClient alwaysBadRequest (some "ref-1")).outcome
      = Except.error "KeyError: errorMessage"
  ∧ handle_payment_status "400" (.dict [])
      = .dict [("errorCode", .str "400"), ("message", .str "Bad Request"),
               ("explanation", .str "Something went wrong on our end.")] :=
  ⟨rfl, rfl, rfl⟩
